import Mathlib

/-
Verification of the extension-source resolution and download subsystem of pyvsc
(pyvsc/_extension.py and its caller pyvsc/commands/install.py), as a shallow
embedding in Lean 4.

Machine integers do not occur in this code; strings are Lean `String`s.
Python functions that can raise are embedded with `Except PyError`; a Python
function that returns `None` in some branch returns an `Option` value.
External collaborators whose source is not part of the verified tree
(the remote execution channel, the marketplace client, `json.loads`) are
passed in as explicit oracle parameters, so every resolution function is a
pure function of its inputs.
-/

namespace PyVsc

/-- Python exception kinds raised by the embedded code paths. -/
inductive PyError where
  | typeError (msg : String)
  | keyError (msg : String)
  | indexError (msg : String)
deriving DecidableEq, Repr

/-- Log severities used by the module logger. -/
inductive LogLevel where
  | info
  | error
deriving DecidableEq, Repr

/-- A single structured log line. -/
structure LogEntry where
  level : LogLevel
  message : String
deriving DecidableEq, Repr

/-- Modelled from the spec: the command construction contract of pyvsc/_curler.py
(`CurledRequest`), which is not under src/. Spec section 6: given a URL and an optional
output-path spec, it returns an opaque command descriptor understood by the remote
execution channel; the core never interprets its internal structure. -/
structure CurlCommand where
  url : Option String
  output : Option String
deriving DecidableEq, Repr

/-- Modelled from the spec: `_curled.get(url, output=...)` from pyvsc/_curler.py,
which is not under src/. It packages the URL and optional output path into an opaque
command descriptor. -/
def curled_get (url : Option String) (output : Option String) : CurlCommand :=
  { url := url, output := output }

/-- Result of running a command through the remote execution channel.
Spec section 6: `run(command) -> (exited, stdout, stderr)`. -/
structure RunResponse where
  exited : Int
  stdout : String
  stderr : String
deriving DecidableEq, Repr

/-- Modelled from the spec: the remote execution channel (pyvsc/_tunnel.py, not under
src/). The core only calls `run` and inspects `exited`, `stdout` and `stderr`. -/
structure Tunnel where
  run : CurlCommand → RunResponse

/-- Modelled from the spec: `dict_from_list_key` from pyvsc/_util.py, which is not
under src/. Spec sections 4.2 and 4.3: a first-match-wins scan over a list of typed
entries that returns the first entry whose key field equals `value`, and null when no
entry matches. The Python string key is represented by the field projection `key`. -/
def dict_from_list_key {α : Type} (l : List α) (key : α → String) (value : String) :
    Option α :=
  l.find? (fun x => key x == value)

/-- Logical platform keys. Modelled from the spec: the platform resolver
(pyvsc/_machine.py, not under src/) maps the local OS/arch to one of these. -/
inductive Platform where
  | windows
  | darwin
  | linux64
  | linux32
deriving DecidableEq, Repr

/-- Modelled from the spec: `platform_query` from pyvsc/_machine.py, which is not under
src/. Spec section 4.5: it returns the caller-supplied value keyed to the matching
platform, taking exactly one of the four branches. The ambient platform is passed
explicitly as `plat`. -/
def platform_query (plat : Platform)
    (windows darwin linux64 linux32 : String) : String :=
  match plat with
  | .windows => windows
  | .darwin => darwin
  | .linux64 => linux64
  | .linux32 => linux32

/-- One entry of `_NON_MARKETPLACE_EXTENSIONS`: a GitHub source descriptor. -/
structure NonMarketplaceEntry where
  owner : String
  repo : String
  asset_name : String
deriving DecidableEq, Repr

/-- `_NON_MARKETPLACE_EXTENSIONS` from pyvsc/_extension.py: the static registry of
non-marketplace (GitHub-hosted) extensions, as an association list. Its single entry's
asset name is platform-conditional via `platform_query`. -/
def NON_MARKETPLACE_EXTENSIONS (plat : Platform) :
    List (String × NonMarketplaceEntry) :=
  [("ms-vscode.cpptools",
    { owner := "Microsoft"
      repo := "vscode-cpptools"
      asset_name := platform_query plat
        "cpptools-win32.vsix" "cpptools-osx.vsix"
        "cpptools-linux.vsix" "cpptools-linux32.vsix" })]

/-- `_NON_MARKETPLACE_EXTENSIONS.get(unique_id)`: exact-string-match lookup. -/
def nonMarketplaceGet (plat : Platform) (unique_id : String) :
    Option NonMarketplaceEntry :=
  (NON_MARKETPLACE_EXTENSIONS plat).lookup unique_id

/-- `ExtensionSourceTypes.Undefined` from pyvsc/_extension.py. -/
def ExtensionSourceTypes.Undefined : Nat := 0

/-- `ExtensionSourceTypes.Marketplace` from pyvsc/_extension.py. -/
def ExtensionSourceTypes.Marketplace : Nat := 1

/-- `ExtensionSourceTypes.GitHub` from pyvsc/_extension.py. -/
def ExtensionSourceTypes.GitHub : Nat := 2

/-- `_GITHUB_API_ROOT_URI` from pyvsc/_extension.py. -/
def GITHUB_API_ROOT_URI : String := "https://api.github.com"

/-- `_GITHUB_ROOT_URI` from pyvsc/_extension.py. -/
def GITHUB_ROOT_URI : String := "https://github.com"

/-- Python str() of an optional string as produced by positional format slots:
`None` formats as the text "None". -/
def pyStr : Option String → String
  | none => "None"
  | some s => s

/-- The base Extension constructor's `download_from_marketplace` field:
`not self.unique_id in _NON_MARKETPLACE_EXTENSIONS.keys()`; a `None` unique id is in
no key set. -/
def downloadFromMarketplaceFlag (plat : Platform) (unique_id : Option String) : Bool :=
  match unique_id with
  | none => true
  | some uid => !((NON_MARKETPLACE_EXTENSIONS plat).map Prod.fst).contains uid

/-- One asset of a GitHub release, with the two fields this code reads. -/
structure Asset where
  name : String
  browser_download_url : String
deriving DecidableEq, Repr

/-- A GitHub release object, with the one field this code reads. -/
structure Release where
  assets : List Asset
deriving DecidableEq, Repr

/-- The JSON body returned by the GitHub releases API, as consumed by
`_from_latest`: either a single release object (the `latest` endpoint) or an array of
release objects (the list endpoint). -/
inductive ReleasesBody where
  | single (r : Release)
  | array (rs : List Release)
deriving DecidableEq, Repr

/-- The uniform outcome of one embedded step: its value, the commands it issued
through the remote execution channel, and the log lines it emitted. -/
structure ResolveStep (α : Type) where
  result : α
  commands : List CurlCommand
  log : List LogEntry
deriving DecidableEq, Repr

/-- `GithubExtension._get_download_url_from_asset_list` from pyvsc/_extension.py:
first-match scan of the asset list by exact name, then an unguarded subscript of the
result, so a missing asset raises TypeError (subscripting None). -/
def _get_download_url_from_asset_list (asset_name : String)
    (asset_list : List Asset) : Except PyError String :=
  match dict_from_list_key asset_list Asset.name asset_name with
  | some asset => .ok asset.browser_download_url
  | none => .error (.typeError "NoneType object is not subscriptable")

/-- The query endpoint string built inside `GithubExtension._from_latest`:
with prereleases disallowed it targets `releases/{release}` (release is "latest"
there), otherwise the releases list endpoint limited to one item. -/
def from_latest_query_endpoint (owner repo release : String)
    (prerelease : Bool) : String :=
  if !prerelease then
    "/repos/" ++ owner ++ "/" ++ repo ++ "/releases/" ++ release ++ "?per_page=1"
  else
    "/repos/" ++ owner ++ "/" ++ repo ++ "/releases?per_page=1"

/-- The full query URL built inside `GithubExtension._from_latest`. -/
def from_latest_query_url (owner repo release : String) (prerelease : Bool) :
    String :=
  GITHUB_API_ROOT_URI ++ from_latest_query_endpoint owner repo release prerelease

/-- The expression `response[0] if self.prerelease else response` followed by the
`['assets']`-carrying object selection in `_from_latest`: with prerelease the decoded
body is indexed as a list (IndexError when empty, KeyError when it is a dict), without
prerelease the body itself is used (a list there fails the later string subscript). -/
def from_latest_response_obj (prerelease : Bool) (body : ReleasesBody) :
    Except PyError Release :=
  if prerelease then
    match body with
    | .array rs =>
      match rs.head? with
      | some r => .ok r
      | none => .error (.indexError "list index out of range")
    | .single _ => .error (.keyError "0")
  else
    match body with
    | .single r => .ok r
    | .array _ => .error (.typeError "list indices must be integers")

/-- `GithubExtension._from_latest` from pyvsc/_extension.py. `json_loads` is the stdlib
`json.loads`, modelled as an oracle decoding the captured stdout into the body shape
this code consumes. On a zero exit status the decoded body is indexed per the
prerelease flag and the asset list scanned by name; on a non-zero exit status the
stderr is logged at error severity and the function returns None. -/
def _from_latest (owner repo asset_name release : String) (prerelease : Bool)
    (tunnel : Tunnel) (json_loads : String → ReleasesBody) :
    ResolveStep (Except PyError (Option String)) :=
  let query_url := from_latest_query_url owner repo release prerelease
  let curled_request := curled_get (some query_url) none
  let response := tunnel.run curled_request
  if response.exited = 0 then
    match from_latest_response_obj prerelease (json_loads response.stdout) with
    | .ok response_obj =>
      match _get_download_url_from_asset_list asset_name response_obj.assets with
      | .ok url => { result := .ok (some url), commands := [curled_request], log := [] }
      | .error e => { result := .error e, commands := [curled_request], log := [] }
    | .error e => { result := .error e, commands := [curled_request], log := [] }
  else
    { result := .ok none
      commands := [curled_request]
      log := [{ level := .error, message := response.stderr }] }

/-- `GithubExtension._from_args` from pyvsc/_extension.py: a pure string join of the
class arguments onto the GitHub root URI, with no network call. -/
def _from_args (owner repo release asset_name : String) : String :=
  GITHUB_ROOT_URI ++ ("/" ++ owner ++ "/" ++ repo ++ "/releases/download/" ++
    release ++ "/" ++ asset_name)

/-- The `GithubExtension` record: the fields set by `GithubExtension.__init__` and the
base `Extension.__init__` it calls (the tunnel reference is passed separately so the
record stays first-order). -/
structure GithubExtension where
  unique_id : Option String
  owner : String
  repo : String
  asset_name : String
  release : String
  prerelease : Bool
  download_url : Option String
  source_type : Nat
  download_from_marketplace : Bool
deriving DecidableEq, Repr

/-- `GithubExtension.__init__` from pyvsc/_extension.py: the download URL comes from
`_from_latest` when the release spec is "latest" (propagating any exception raised
there) and from the pure `_from_args` join otherwise; the base constructor then tags
the record with the GitHub source type. -/
def GithubExtension.construct (plat : Platform)
    (owner repo asset_name release : String) (prerelease : Bool)
    (unique_id : Option String) (tunnel : Tunnel)
    (json_loads : String → ReleasesBody) :
    ResolveStep (Except PyError GithubExtension) :=
  let step :=
    if release = "latest" then
      _from_latest owner repo asset_name release prerelease tunnel json_loads
    else
      { result := .ok (some (_from_args owner repo release asset_name))
        commands := []
        log := [] }
  match step.result with
  | .ok download_url =>
    { result := .ok
        { unique_id := unique_id
          owner := owner
          repo := repo
          asset_name := asset_name
          release := release
          prerelease := prerelease
          download_url := download_url
          source_type := ExtensionSourceTypes.GitHub
          download_from_marketplace := downloadFromMarketplaceFlag plat unique_id }
      commands := step.commands
      log := step.log }
  | .error e => { result := .error e, commands := step.commands, log := step.log }

/-- One entry of a marketplace version's `files` list. -/
structure VersionFile where
  assetType : String
  source : String
deriving DecidableEq, Repr

/-- One entry of a marketplace version's `properties` list. -/
structure VersionProperty where
  key : String
  value : String
deriving DecidableEq, Repr

/-- One element of the marketplace response's `versions` list, with the fields this
code reads. -/
structure MarketplaceVersion where
  version : String
  assetUri : String
  fallbackAssetUri : String
  files : List VersionFile
  properties : List VersionProperty
deriving DecidableEq, Repr

/-- The `publisher` object of a marketplace response. -/
structure Publisher where
  publisherName : String
deriving DecidableEq, Repr

/-- One statistics entry of a marketplace response; the constructor copies the
statistics list verbatim and never reads inside it. -/
structure Statistic where
  statisticName : String
  value : String
deriving DecidableEq, Repr

/-- The parsed marketplace response record consumed by `MarketplaceExtension.__init__`
(shape per spec section 6). -/
structure MarketplaceResponse where
  extensionId : String
  extensionName : String
  displayName : String
  publisher : Publisher
  shortDescription : String
  statistics : List Statistic
  versions : List MarketplaceVersion
deriving DecidableEq, Repr

/-- `MarketplaceExtension._manifest_url` from pyvsc/_extension.py. -/
def _manifest_url (files : List VersionFile) : Option String :=
  match dict_from_list_key files VersionFile.assetType
      "Microsoft.VisualStudio.Code.Manifest" with
  | some m => some m.source
  | none => none

/-- `MarketplaceExtension._vsix_package_uri` from pyvsc/_extension.py. -/
def _vsix_package_uri (files : List VersionFile) : Option String :=
  match dict_from_list_key files VersionFile.assetType
      "Microsoft.VisualStudio.Services.VSIXPackage" with
  | some m => some m.source
  | none => none

/-- `MarketplaceExtension._code_engine` from pyvsc/_extension.py. -/
def _code_engine (properties : List VersionProperty) : Option String :=
  match dict_from_list_key properties VersionProperty.key
      "Microsoft.VisualStudio.Code.Engine" with
  | some m => some m.value
  | none => none

/-- `MarketplaceExtension._extension_pack` from pyvsc/_extension.py. -/
def _extension_pack (properties : List VersionProperty) : Option String :=
  match dict_from_list_key properties VersionProperty.key
      "Microsoft.VisualStudio.Code.ExtensionPack" with
  | some m => some m.value
  | none => none

/-- `MarketplaceExtension._extension_dependencies` from pyvsc/_extension.py. -/
def _extension_dependencies (properties : List VersionProperty) : Option String :=
  match dict_from_list_key properties VersionProperty.key
      "Microsoft.VisualStudio.Code.ExtensionDependencies" with
  | some m => some m.value
  | none => none

/-- The asset URI bundle assembled by `MarketplaceExtension.__init__`. -/
structure UriBundle where
  asset : String
  asset_fallback : String
  manifest : Option String
  vsix_package : Option String
deriving DecidableEq, Repr

/-- The `MarketplaceExtension` record: the fields set by
`MarketplaceExtension.__init__` and the base `Extension.__init__` it calls. -/
structure MarketplaceExtension where
  extension_id : String
  extension_name : String
  display_name : String
  publisher_name : String
  unique_id : String
  description : String
  stats : List Statistic
  uri : UriBundle
  version : String
  code_engine : Option String
  extension_pack : Option String
  extension_dependencies : Option String
  download_url : Option String
  source_type : Nat
  download_from_marketplace : Bool
deriving DecidableEq, Repr

/-- `MarketplaceExtension.__init__` from pyvsc/_extension.py: the unique id is rebuilt
as publisherName.extensionName, only `versions[0]` is read (an empty versions list
raises IndexError), and the optional metadata fields come from the first-match
extractors; the download URL is the vsix-package URI. -/
def MarketplaceExtension.ofResponse (plat : Platform)
    (p : MarketplaceResponse) : Except PyError MarketplaceExtension :=
  let publisher_name := p.publisher.publisherName
  let unique_id := publisher_name ++ "." ++ p.extensionName
  match p.versions.head? with
  | none => .error (.indexError "list index out of range")
  | some version =>
    let files := version.files
    let properties := version.properties
    let uri : UriBundle :=
      { asset := version.assetUri
        asset_fallback := version.fallbackAssetUri
        manifest := _manifest_url files
        vsix_package := _vsix_package_uri files }
    .ok
      { extension_id := p.extensionId
        extension_name := p.extensionName
        display_name := p.displayName
        publisher_name := publisher_name
        unique_id := unique_id
        description := p.shortDescription
        stats := p.statistics
        uri := uri
        version := version.version
        code_engine := _code_engine properties
        extension_pack := _extension_pack properties
        extension_dependencies := _extension_dependencies properties
        download_url := uri.vsix_package
        source_type := ExtensionSourceTypes.Marketplace
        download_from_marketplace := downloadFromMarketplaceFlag plat (some unique_id) }

/-- The Extension value produced by resolution: one of the two variants. -/
inductive Extension where
  | github (e : GithubExtension)
  | marketplace (e : MarketplaceExtension)
deriving DecidableEq, Repr

/-- The common `unique_id` field of an Extension. -/
def Extension.unique_id : Extension → Option String
  | .github e => e.unique_id
  | .marketplace e => some e.unique_id

/-- The common `source_type` field of an Extension. -/
def Extension.source_type : Extension → Nat
  | .github e => e.source_type
  | .marketplace e => e.source_type

/-- The common `download_url` field of an Extension. -/
def Extension.download_url : Extension → Option String
  | .github e => e.download_url
  | .marketplace e => e.download_url

/-- `hasattr(self, 'version')` on an Extension: only the marketplace variant sets a
`version` attribute. -/
def Extension.version? : Extension → Option String
  | .github _ => none
  | .marketplace e => some e.version

/-- `get_extension` from pyvsc/_extension.py: exact-string lookup of the unique id in
the non-marketplace registry; a hit builds a GithubExtension from the registry entry
with the caller-supplied release spec, a miss queries the marketplace client
(`marketplace_get`, modelled from spec section 6 since pyvsc/_marketplace.py is not
under src/) and wraps the record in a MarketplaceExtension. -/
def get_extension (plat : Platform) (unique_id : String) (tunnel : Tunnel)
    (release : String) (json_loads : String → ReleasesBody)
    (marketplace_get : String → MarketplaceResponse) :
    ResolveStep (Except PyError Extension) :=
  match nonMarketplaceGet plat unique_id with
  | none =>
    match MarketplaceExtension.ofResponse plat (marketplace_get unique_id) with
    | .ok me => { result := .ok (.marketplace me), commands := [], log := [] }
    | .error e => { result := .error e, commands := [], log := [] }
  | some e =>
    let step := GithubExtension.construct plat e.owner e.repo e.asset_name
      release false (some unique_id) tunnel json_loads
    match step.result with
    | .ok ge => { result := .ok (.github ge), commands := step.commands, log := step.log }
    | .error err => { result := .error err, commands := step.commands, log := step.log }

/-- `Extension.download` from pyvsc/_extension.py: composes the output filename from
the unique id (with "-version" appended when a version attribute exists), issues the
fetch command through the remote execution channel, logs stdout at info severity on a
zero exit status and stderr at error severity otherwise. The function body contains no
return statement, so the result slot is Python's implicit None in both branches. -/
def Extension.download (self : Extension) (tunnel : Tunnel) (directory : String) :
    ResolveStep (Option String) :=
  let ext_name :=
    match self.version? with
    | none => pyStr self.unique_id
    | some v => pyStr self.unique_id ++ "-" ++ v
  let curled_request :=
    curled_get self.download_url (some (directory ++ "/" ++ ext_name ++ ".vsix"))
  let response := tunnel.run curled_request
  if response.exited = 0 then
    { result := none
      commands := [curled_request]
      log := [{ level := .info, message := response.stdout }] }
  else
    { result := none
      commands := [curled_request]
      log := [{ level := .error, message := response.stderr }] }

/-- The number of parameters of `Extension.download` besides `self`, read off its
signature `def download(self, directory)` in pyvsc/_extension.py. -/
def download_param_count : Nat := 1

/-- Python positional-call semantics for the bound method `Extension.download`: a call
whose positional argument list does not match the single declared parameter raises
TypeError before the method body runs, so no command reaches the channel. -/
def Extension.download_call (self : Extension) (tunnel : Tunnel)
    (args : List String) : Except PyError (ResolveStep (Option String)) :=
  match args with
  | [directory] => .ok (self.download tunnel directory)
  | _ =>
    .error (.typeError
      "download() takes 2 positional arguments but 3 were given")

/-- The per-extension body of `InstallCommand._install_extensions` from
pyvsc/commands/install.py: resolve the unique id, then invoke
`ext.download(remote_output, local_output)` with two positional arguments. -/
def install_extension_step (plat : Platform) (unique_id : String)
    (tunnel : Tunnel) (json_loads : String → ReleasesBody)
    (marketplace_get : String → MarketplaceResponse)
    (remote_output local_output : String) :
    Except PyError (ResolveStep (Option String)) :=
  match (get_extension plat unique_id tunnel "latest" json_loads
      marketplace_get).result with
  | .ok ext => ext.download_call tunnel [remote_output, local_output]
  | .error e => .error e

/-- A channel on which every command succeeds with exit status 0. -/
def okTunnel : Tunnel :=
  ⟨fun _ => { exited := 0, stdout := "ok", stderr := "" }⟩

/-- A channel on which every command fails with exit status 1 and stderr
"not found". -/
def failTunnel : Tunnel :=
  ⟨fun _ => { exited := 1, stdout := "", stderr := "not found" }⟩

/-- A sample GitHub release carrying one asset. -/
def sampleRelease : Release :=
  { assets := [{ name := "widget-linux.vsix", browser_download_url := "U" }] }

/-- A decoder that reads every body as the single sample release object. -/
def singleDecoder : String → ReleasesBody := fun _ => .single sampleRelease

/-- A decoder that reads every body as a one-element release list. -/
def arrayDecoder : String → ReleasesBody := fun _ => .array [sampleRelease]

/-- A sample marketplace response with one version whose files carry only the
VSIXPackage asset. -/
def sampleMarketplaceResponse : MarketplaceResponse :=
  { extensionId := "id"
    extensionName := "pkg"
    displayName := "Pkg"
    publisher := { publisherName := "pub" }
    shortDescription := ""
    statistics := []
    versions := [{ version := "1.2.3"
                   assetUri := "au"
                   fallbackAssetUri := "fau"
                   files := [{ assetType := "Microsoft.VisualStudio.Services.VSIXPackage"
                               source := "U" }]
                   properties := [] }] }

/-- The MarketplaceExtension record that `MarketplaceExtension.ofResponse` produces
from `sampleMarketplaceResponse`. -/
def sampleMarketplaceExtension : MarketplaceExtension :=
  { extension_id := "id"
    extension_name := "pkg"
    display_name := "Pkg"
    publisher_name := "pub"
    unique_id := "pub.pkg"
    description := ""
    stats := []
    uri := { asset := "au", asset_fallback := "fau", manifest := none
             vsix_package := some "U" }
    version := "1.2.3"
    code_engine := none
    extension_pack := none
    extension_dependencies := none
    download_url := some "U"
    source_type := ExtensionSourceTypes.Marketplace
    download_from_marketplace := true }

/-- A sample GithubExtension record with no version attribute and a known URL. -/
def sampleGithubExtension : GithubExtension :=
  { unique_id := some "pub.pkg"
    owner := "acme"
    repo := "widget"
    asset_name := "widget-linux.vsix"
    release := "v1.2"
    prerelease := false
    download_url := some "U"
    source_type := ExtensionSourceTypes.GitHub
    download_from_marketplace := true }

/-- The GithubExtension that resolving "ms-vscode.cpptools" on a 64-bit Linux host
with release spec "v1.2" produces. -/
def cpptoolsResolved : GithubExtension :=
  { unique_id := some "ms-vscode.cpptools"
    owner := "Microsoft"
    repo := "vscode-cpptools"
    asset_name := "cpptools-linux.vsix"
    release := "v1.2"
    prerelease := false
    download_url :=
      some "https://github.com/Microsoft/vscode-cpptools/releases/download/v1.2/cpptools-linux.vsix"
    source_type := ExtensionSourceTypes.GitHub
    download_from_marketplace := false }

/-- A successfully constructed GithubExtension carries exactly the constructor's
arguments in its identifying fields and is tagged with the GitHub source type. -/
theorem GithubExtension.construct_fields (plat : Platform)
    (owner repo asset_name release : String) (prerelease : Bool)
    (unique_id : Option String) (tunnel : Tunnel)
    (json_loads : String → ReleasesBody) (ge : GithubExtension)
    (h : (GithubExtension.construct plat owner repo asset_name release prerelease
        unique_id tunnel json_loads).result = .ok ge) :
    ge.owner = owner ∧ ge.repo = repo ∧ ge.asset_name = asset_name ∧
    ge.release = release ∧ ge.prerelease = prerelease ∧
    ge.unique_id = unique_id ∧ ge.source_type = ExtensionSourceTypes.GitHub := by
  by_cases hrel : release = "latest"
  · subst hrel
    rcases hres : (_from_latest owner repo asset_name "latest" prerelease tunnel
        json_loads).result with e | du
    · simp [GithubExtension.construct, hres] at h
    · simp [GithubExtension.construct, hres] at h
      subst h
      exact ⟨rfl, rfl, rfl, rfl, rfl, rfl, rfl⟩
  · simp [GithubExtension.construct, hrel] at h
    subst h
    exact ⟨rfl, rfl, rfl, rfl, rfl, rfl, rfl⟩

/-- The first-match scan returns none when no entry's key field equals the value. -/
theorem dict_from_list_key_eq_none {α : Type} (l : List α) (key : α → String)
    (value : String) (h : ∀ x ∈ l, key x ≠ value) :
    dict_from_list_key l key value = none := by
  rw [dict_from_list_key, List.find?_eq_none]
  intro x hx
  simpa using h x hx

/-- The first-match scan returns the first entry whose key field equals the value. -/
theorem dict_from_list_key_first {α : Type} (l1 : List α) (a : α) (l2 : List α)
    (key : α → String) (value : String) (ha : key a = value)
    (h : ∀ x ∈ l1, key x ≠ value) :
    dict_from_list_key (l1 ++ a :: l2) key value = some a := by
  induction l1 with
  | nil => simp [dict_from_list_key, List.find?, ha]
  | cons b bs ih =>
    have hb : (key b == value) = false := by simpa using h b (by simp)
    simpa [dict_from_list_key, List.find?, hb]
      using ih (fun c hc => h c (by simp [hc]))

/-- Asset-list extraction returns the browser download URL of the first asset whose
name equals the requested name. -/
theorem get_download_url_found (asset_name : String) (l1 : List Asset) (a : Asset)
    (l2 : List Asset) (ha : a.name = asset_name)
    (hl1 : ∀ b ∈ l1, b.name ≠ asset_name) :
    _get_download_url_from_asset_list asset_name (l1 ++ a :: l2) =
      .ok a.browser_download_url := by
  rw [_get_download_url_from_asset_list,
    dict_from_list_key_first l1 a l2 Asset.name asset_name ha hl1]

/-- Asset-list extraction raises when no asset name equals the requested name. -/
theorem get_download_url_not_found (asset_name : String) (asset_list : List Asset)
    (hall : ∀ a ∈ asset_list, a.name ≠ asset_name) :
    _get_download_url_from_asset_list asset_name asset_list =
      .error (.typeError "NoneType object is not subscriptable") := by
  rw [_get_download_url_from_asset_list,
    dict_from_list_key_eq_none asset_list Asset.name asset_name hall]

/-- A successfully normalized MarketplaceExtension is tagged with the Marketplace
source type. -/
theorem MarketplaceExtension.ofResponse_source_type (plat : Platform)
    (p : MarketplaceResponse) (me : MarketplaceExtension)
    (h : MarketplaceExtension.ofResponse plat p = .ok me) :
    me.source_type = ExtensionSourceTypes.Marketplace := by
  unfold MarketplaceExtension.ofResponse at h
  split at h
  · exact absurd h (by simp)
  · obtain rfl := Except.ok.inj h
    rfl

/-- A successfully normalized MarketplaceExtension's unique id is rebuilt from the
record's publisher and extension names. -/
theorem marketplace_unique_id_shape (plat : Platform) (p : MarketplaceResponse)
    (me : MarketplaceExtension)
    (h : MarketplaceExtension.ofResponse plat p = .ok me) :
    me.unique_id = p.publisher.publisherName ++ "." ++ p.extensionName := by
  unfold MarketplaceExtension.ofResponse at h
  split at h
  · exact absurd h (by simp)
  · obtain rfl := Except.ok.inj h
    rfl

/-- Claim C3: for a concrete (non-"latest") release tag, GithubExtension construction
issues no command through the channel and the download URL is the pure string join of
the GitHub root with owner, repo, release and asset name; on the acme/widget example
the join is exactly the expected URL. -/
theorem from_args_url_construction (plat : Platform)
    (owner repo asset_name release : String) (prerelease : Bool)
    (unique_id : Option String) (tunnel : Tunnel)
    (json_loads : String → ReleasesBody)
    (h : release ≠ "latest") :
    (GithubExtension.construct plat owner repo asset_name release prerelease
        unique_id tunnel json_loads).commands = [] ∧
    (∃ ge, (GithubExtension.construct plat owner repo asset_name release prerelease
        unique_id tunnel json_loads).result = .ok ge ∧
      ge.download_url = some ("https://github.com/" ++ owner ++ "/" ++ repo ++
        "/releases/download/" ++ release ++ "/" ++ asset_name)) ∧
    _from_args "acme" "widget" "v1.2" "widget-linux.vsix" =
      "https://github.com/acme/widget/releases/download/v1.2/widget-linux.vsix" := by
  have hjoin : _from_args owner repo release asset_name =
      "https://github.com/" ++ owner ++ "/" ++ repo ++ "/releases/download/" ++
        release ++ "/" ++ asset_name := by
    simp only [_from_args, GITHUB_ROOT_URI, String.append_assoc]
    rw [← String.append_assoc]
    rfl
  refine ⟨by simp [GithubExtension.construct, h], ?_, rfl⟩
  refine ⟨{ unique_id := unique_id, owner := owner, repo := repo
            asset_name := asset_name, release := release, prerelease := prerelease
            download_url := some (_from_args owner repo release asset_name)
            source_type := ExtensionSourceTypes.GitHub
            download_from_marketplace := downloadFromMarketplaceFlag plat unique_id },
    by simp [GithubExtension.construct, h], ?_⟩
  show some (_from_args owner repo release asset_name) = _
  rw [hjoin]

/-- Witness for from_args_url_construction at the concrete acme/widget release
"v1.2". -/
theorem from_args_url_construction_witness :
    (GithubExtension.construct .linux64 "acme" "widget" "widget-linux.vsix" "v1.2"
        false none okTunnel singleDecoder).commands = [] ∧
    (∃ ge, (GithubExtension.construct .linux64 "acme" "widget" "widget-linux.vsix"
        "v1.2" false none okTunnel singleDecoder).result = .ok ge ∧
      ge.download_url = some ("https://github.com/" ++ "acme" ++ "/" ++ "widget" ++
        "/releases/download/" ++ "v1.2" ++ "/" ++ "widget-linux.vsix")) ∧
    _from_args "acme" "widget" "v1.2" "widget-linux.vsix" =
      "https://github.com/acme/widget/releases/download/v1.2/widget-linux.vsix" :=
  from_args_url_construction .linux64 "acme" "widget" "widget-linux.vsix" "v1.2"
    false none okTunnel singleDecoder (by decide)

/-- Claim C4: download-URL extraction from a release asset list returns the browser
download URL of the first asset whose name exactly equals the requested one (on the
two-asset example it returns "U" for "b.vsix"), and on any list with no matching name
it fails with a raised error rather than returning a URL. -/
theorem asset_list_first_match :
    (∀ asset_name l1 (a : Asset) l2, a.name = asset_name →
        (∀ b ∈ l1, b.name ≠ asset_name) →
        _get_download_url_from_asset_list asset_name (l1 ++ a :: l2) =
          .ok a.browser_download_url) ∧
    (∀ asset_name asset_list, (∀ a ∈ asset_list, a.name ≠ asset_name) →
        _get_download_url_from_asset_list asset_name asset_list =
          .error (.typeError "NoneType object is not subscriptable")) ∧
    _get_download_url_from_asset_list "b.vsix"
        [{ name := "a.vsix", browser_download_url := "A" },
         { name := "b.vsix", browser_download_url := "U" }] = .ok "U" := by
  exact ⟨get_download_url_found, get_download_url_not_found, rfl⟩

/-- Witness for asset_list_first_match: on the two-asset example, resolving the
absent name "c.vsix" fails with the raised error. -/
theorem asset_list_first_match_witness :
    _get_download_url_from_asset_list "c.vsix"
        [{ name := "a.vsix", browser_download_url := "A" },
         { name := "b.vsix", browser_download_url := "U" }] =
      .error (.typeError "NoneType object is not subscriptable") :=
  asset_list_first_match.2.1 "c.vsix"
    [{ name := "a.vsix", browser_download_url := "A" },
     { name := "b.vsix", browser_download_url := "U" }] (by decide)

/-- Claim C6 (code bug): `Extension.download` composes the output filename from the
unique id, appending "-version" exactly when a version attribute exists, but its body
contains no return statement: over a channel that succeeds (exit status 0) it still
yields no path (Python's implicit None), where the claim requires the resulting path
to be returned, and over a channel failing with stderr "not found" it only emits the
error-severity log line and yields None without propagating any failure. -/
theorem download_returns_no_path :
    (Extension.download (.github sampleGithubExtension) okTunnel "dir").commands =
      [curled_get (some "U") (some "dir/pub.pkg.vsix")] ∧
    (Extension.download (.github sampleGithubExtension) okTunnel "dir").result = none ∧
    (Extension.download (.github sampleGithubExtension) okTunnel "dir").log =
      [{ level := .info, message := "ok" }] ∧
    (Extension.download (.marketplace sampleMarketplaceExtension) failTunnel
        "dir").commands =
      [curled_get (some "U") (some "dir/pub.pkg-1.2.3.vsix")] ∧
    (Extension.download (.marketplace sampleMarketplaceExtension) failTunnel
        "dir").result = none ∧
    (Extension.download (.marketplace sampleMarketplaceExtension) failTunnel
        "dir").log = [{ level := .error, message := "not found" }] :=
  ⟨rfl, rfl, rfl, rfl, rfl, rfl⟩

/-- Claim C8: resolution is deterministic in its inputs — two resolutions of the same
identifier against the same channel, decoder and marketplace oracle yield Extension
records with identical unique id, source type and download URL. -/
theorem resolution_deterministic (plat : Platform) (uid release : String)
    (tunnel : Tunnel) (json_loads : String → ReleasesBody)
    (mget : String → MarketplaceResponse) (ext1 ext2 : Extension)
    (h1 : (get_extension plat uid tunnel release json_loads mget).result = .ok ext1)
    (h2 : (get_extension plat uid tunnel release json_loads mget).result = .ok ext2) :
    ext1.unique_id = ext2.unique_id ∧ ext1.source_type = ext2.source_type ∧
    ext1.download_url = ext2.download_url := by
  rw [h1] at h2
  obtain rfl := Except.ok.inj h2
  exact ⟨rfl, rfl, rfl⟩

/-- Witness for resolution_deterministic at the concrete cpptools resolution. -/
theorem resolution_deterministic_witness :
    (Extension.github cpptoolsResolved).unique_id =
      (Extension.github cpptoolsResolved).unique_id ∧
    (Extension.github cpptoolsResolved).source_type =
      (Extension.github cpptoolsResolved).source_type ∧
    (Extension.github cpptoolsResolved).download_url =
      (Extension.github cpptoolsResolved).download_url :=
  resolution_deterministic .linux64 "ms-vscode.cpptools" "v1.2" okTunnel
    singleDecoder (fun _ => sampleMarketplaceResponse)
    (.github cpptoolsResolved) (.github cpptoolsResolved) rfl rfl

/-- Claim C9: the install command's extension loop invokes `Extension.download` with
two positional arguments while the method declares a single directory parameter, so
every such invocation raises TypeError and no fetch command reaches the remote
execution channel. -/
theorem install_download_arity_type_error (plat : Platform) (uid : String)
    (tunnel : Tunnel) (json_loads : String → ReleasesBody)
    (mget : String → MarketplaceResponse) (remote_output local_output : String)
    (ext : Extension)
    (hok : (get_extension plat uid tunnel "latest" json_loads mget).result = .ok ext) :
    download_param_count = 1 ∧
    [remote_output, local_output].length = 2 ∧
    Extension.download_call ext tunnel [remote_output, local_output] =
      .error (.typeError "download() takes 2 positional arguments but 3 were given") ∧
    install_extension_step plat uid tunnel json_loads mget remote_output
        local_output =
      .error (.typeError "download() takes 2 positional arguments but 3 were given") := by
  refine ⟨rfl, rfl, rfl, ?_⟩
  simp [install_extension_step, hok, Extension.download_call]

/-- Witness for install_download_arity_type_error at a concrete marketplace
resolution. -/
theorem install_download_arity_type_error_witness :
    download_param_count = 1 ∧
    (["r", "l"] : List String).length = 2 ∧
    Extension.download_call (.marketplace sampleMarketplaceExtension) okTunnel
        ["r", "l"] =
      .error (.typeError "download() takes 2 positional arguments but 3 were given") ∧
    install_extension_step .linux64 "pub.pkg" okTunnel singleDecoder
        (fun _ => sampleMarketplaceResponse) "r" "l" =
      .error (.typeError "download() takes 2 positional arguments but 3 were given") :=
  install_download_arity_type_error .linux64 "pub.pkg" okTunnel singleDecoder
    (fun _ => sampleMarketplaceResponse) "r" "l"
    (.marketplace sampleMarketplaceExtension) rfl

/-- Claim C10: a MarketplaceExtension's unique id is recomputed from the marketplace
record as publisherName.extensionName of the first returned record, so it equals a
requested identifier exactly when that recomputed string reproduces it. -/
theorem marketplace_unique_id_recomputed (plat : Platform)
    (p : MarketplaceResponse) (queried : String) (me : MarketplaceExtension)
    (h : MarketplaceExtension.ofResponse plat p = .ok me) :
    me.unique_id = p.publisher.publisherName ++ "." ++ p.extensionName ∧
    (me.unique_id = queried ↔
      p.publisher.publisherName ++ "." ++ p.extensionName = queried) := by
  have huid : me.unique_id = p.publisher.publisherName ++ "." ++ p.extensionName := by
    unfold MarketplaceExtension.ofResponse at h
    split at h
    · exact absurd h (by simp)
    · obtain rfl := Except.ok.inj h
      rfl
  exact ⟨huid, by rw [huid]⟩

/-- Witness for marketplace_unique_id_recomputed: the sample record resolves to
unique id "pub.pkg", which differs from the queried identifier "other.query". -/
theorem marketplace_unique_id_recomputed_witness :
    sampleMarketplaceExtension.unique_id =
      sampleMarketplaceResponse.publisher.publisherName ++ "." ++
        sampleMarketplaceResponse.extensionName ∧
    (sampleMarketplaceExtension.unique_id = "other.query" ↔
      sampleMarketplaceResponse.publisher.publisherName ++ "." ++
        sampleMarketplaceResponse.extensionName = "other.query") :=
  marketplace_unique_id_recomputed .linux64 sampleMarketplaceResponse
    "other.query" sampleMarketplaceExtension rfl

/-- Claim C1: resolution branches solely on exact-string membership of the unique id
in the non-marketplace registry: a registry hit yields a GitHub-sourced Extension
carrying the entry's owner, repo and platform-resolved asset name together with the
caller-supplied release spec, a registry miss yields a MarketplaceExtension wrapping
the normalized marketplace record for that id, and registry membership is exact
string equality on the unique id. -/
theorem get_extension_source_selection (plat : Platform) (uid release : String)
    (tunnel : Tunnel) (json_loads : String → ReleasesBody)
    (mget : String → MarketplaceResponse) (ext : Extension)
    (hok : (get_extension plat uid tunnel release json_loads mget).result =
      .ok ext) :
    (∀ e, nonMarketplaceGet plat uid = some e →
       ∃ ge, ext = .github ge ∧ ge.owner = e.owner ∧ ge.repo = e.repo ∧
         ge.asset_name = e.asset_name ∧ ge.release = release ∧
         ge.unique_id = some uid ∧ ge.source_type = ExtensionSourceTypes.GitHub) ∧
    (nonMarketplaceGet plat uid = none →
       ∃ me, ext = .marketplace me ∧
         MarketplaceExtension.ofResponse plat (mget uid) = .ok me ∧
         me.unique_id = (mget uid).publisher.publisherName ++ "." ++
           (mget uid).extensionName ∧
         me.source_type = ExtensionSourceTypes.Marketplace) ∧
    ((nonMarketplaceGet plat uid).isSome ↔
       ∃ kv ∈ NON_MARKETPLACE_EXTENSIONS plat, kv.1 = uid) := by
  refine ⟨?_, ?_, ?_⟩
  · intro e he
    rcases hres : (GithubExtension.construct plat e.owner e.repo e.asset_name
        release false (some uid) tunnel json_loads).result with err | ge
    · exfalso
      simp [get_extension, he, hres] at hok
    · obtain ⟨h1, h2, h3, h4, _, h6, h7⟩ := GithubExtension.construct_fields plat
        e.owner e.repo e.asset_name release false (some uid) tunnel json_loads
        ge hres
      simp only [get_extension, he, hres] at hok
      obtain rfl := Except.ok.inj hok
      exact ⟨ge, rfl, h1, h2, h3, h4, h6, h7⟩
  · intro he
    rcases hres : MarketplaceExtension.ofResponse plat (mget uid) with err | me
    · exfalso
      simp [get_extension, he, hres] at hok
    · simp only [get_extension, he, hres] at hok
      obtain rfl := Except.ok.inj hok
      have hu := marketplace_unique_id_shape plat (mget uid) me hres
      exact ⟨me, rfl, rfl, hu,
        MarketplaceExtension.ofResponse_source_type plat (mget uid) me hres⟩
  · by_cases huid : uid = "ms-vscode.cpptools"
    · subst huid
      simp [nonMarketplaceGet, NON_MARKETPLACE_EXTENSIONS, List.lookup]
    · have hbeq : (uid == "ms-vscode.cpptools") = false := by
        simpa using huid
      simp [nonMarketplaceGet, NON_MARKETPLACE_EXTENSIONS, List.lookup, hbeq]
      exact fun h => absurd h.symm huid

/-- Witness for get_extension_source_selection at the registry identifier
"ms-vscode.cpptools" on a 64-bit Linux host with release spec "v1.2". -/
theorem get_extension_source_selection_witness :
    (∀ e, nonMarketplaceGet .linux64 "ms-vscode.cpptools" = some e →
       ∃ ge, Extension.github cpptoolsResolved = .github ge ∧ ge.owner = e.owner ∧
         ge.repo = e.repo ∧ ge.asset_name = e.asset_name ∧ ge.release = "v1.2" ∧
         ge.unique_id = some "ms-vscode.cpptools" ∧
         ge.source_type = ExtensionSourceTypes.GitHub) ∧
    (nonMarketplaceGet .linux64 "ms-vscode.cpptools" = none →
       ∃ me, Extension.github cpptoolsResolved = .marketplace me ∧
         MarketplaceExtension.ofResponse .linux64 (sampleMarketplaceResponse) =
           .ok me ∧
         me.unique_id = sampleMarketplaceResponse.publisher.publisherName ++ "." ++
           sampleMarketplaceResponse.extensionName ∧
         me.source_type = ExtensionSourceTypes.Marketplace) ∧
    ((nonMarketplaceGet .linux64 "ms-vscode.cpptools").isSome ↔
       ∃ kv ∈ NON_MARKETPLACE_EXTENSIONS .linux64,
         kv.1 = "ms-vscode.cpptools") :=
  get_extension_source_selection .linux64 "ms-vscode.cpptools" "v1.2" okTunnel
    singleDecoder (fun _ => sampleMarketplaceResponse)
    (.github cpptoolsResolved) rfl

/-- Claim C2: with release "latest", resolution issues exactly one GET, to the
releases-latest endpoint when prereleases are disallowed and to the one-item releases
list endpoint when they are allowed; it treats the decoded body as a single release
object respectively as a list whose element 0 is taken, and returns the browser
download URL of the first asset whose name exactly equals the requested asset name. -/
theorem from_latest_resolution (owner repo asset_name : String) (prerelease : Bool)
    (tunnel : Tunnel) (json_loads : String → ReleasesBody) (r : Release)
    (l1 : List Asset) (a : Asset) (l2 : List Asset)
    (hexit : (tunnel.run (curled_get (some (from_latest_query_url owner repo
        "latest" prerelease)) none)).exited = 0)
    (hbody : from_latest_response_obj prerelease (json_loads (tunnel.run
        (curled_get (some (from_latest_query_url owner repo "latest" prerelease))
          none)).stdout) = .ok r)
    (hassets : r.assets = l1 ++ a :: l2)
    (hname : a.name = asset_name)
    (hfirst : ∀ b ∈ l1, b.name ≠ asset_name) :
    from_latest_query_url owner repo "latest" false =
      "https://api.github.com/repos/" ++ owner ++ "/" ++ repo ++
        "/releases/latest?per_page=1" ∧
    from_latest_query_url owner repo "latest" true =
      "https://api.github.com/repos/" ++ owner ++ "/" ++ repo ++
        "/releases?per_page=1" ∧
    (∀ r0, from_latest_response_obj false (.single r0) = .ok r0) ∧
    (∀ r0 rs, from_latest_response_obj true (.array (r0 :: rs)) = .ok r0) ∧
    _from_latest owner repo asset_name "latest" prerelease tunnel json_loads =
      { result := .ok (some a.browser_download_url)
        commands := [curled_get (some (from_latest_query_url owner repo "latest"
          prerelease)) none]
        log := [] } := by
  refine ⟨?_, ?_, fun r0 => rfl, fun r0 rs => rfl, ?_⟩
  · simp only [from_latest_query_url, from_latest_query_endpoint,
      GITHUB_API_ROOT_URI, Bool.not_false, if_true, String.append_assoc]
    rw [← String.append_assoc]
    rfl
  · simp only [from_latest_query_url, from_latest_query_endpoint,
      GITHUB_API_ROOT_URI, Bool.not_true, String.append_assoc]
    rw [if_neg (by simp)]
    rw [← String.append_assoc]
    rfl
  · have hurl := get_download_url_found asset_name l1 a l2 hname hfirst
    rw [← hassets] at hurl
    simp [_from_latest, hexit, hbody, hurl]

/-- Witness for from_latest_resolution: a channel that succeeds with a body decoding
to the single sample release resolves "widget-linux.vsix" to its URL "U". -/
theorem from_latest_resolution_witness :
    from_latest_query_url "acme" "widget" "latest" false =
      "https://api.github.com/repos/" ++ "acme" ++ "/" ++ "widget" ++
        "/releases/latest?per_page=1" ∧
    from_latest_query_url "acme" "widget" "latest" true =
      "https://api.github.com/repos/" ++ "acme" ++ "/" ++ "widget" ++
        "/releases?per_page=1" ∧
    (∀ r0, from_latest_response_obj false (.single r0) = .ok r0) ∧
    (∀ r0 rs, from_latest_response_obj true (.array (r0 :: rs)) = .ok r0) ∧
    _from_latest "acme" "widget" "widget-linux.vsix" "latest" false okTunnel
        singleDecoder =
      { result := .ok (some "U")
        commands := [curled_get (some (from_latest_query_url "acme" "widget"
          "latest" false)) none]
        log := [] } :=
  from_latest_resolution "acme" "widget" "widget-linux.vsix" false okTunnel
    singleDecoder sampleRelease []
    { name := "widget-linux.vsix", browser_download_url := "U" } [] rfl rfl rfl
    rfl (by simp)

/-- Claim C5: when the remote execution channel reports a non-zero exit status during
latest-release resolution, the captured error stream is logged at error severity and
resolution yields a null download URL without raising; the GithubExtension is still
constructed, with a null download URL. -/
theorem latest_resolution_null_on_transport_failure (plat : Platform)
    (owner repo asset_name : String) (prerelease : Bool)
    (unique_id : Option String) (tunnel : Tunnel)
    (json_loads : String → ReleasesBody)
    (hexit : (tunnel.run (curled_get (some (from_latest_query_url owner repo
        "latest" prerelease)) none)).exited ≠ 0) :
    _from_latest owner repo asset_name "latest" prerelease tunnel json_loads =
      { result := .ok none
        commands := [curled_get (some (from_latest_query_url owner repo "latest"
          prerelease)) none]
        log := [{ level := .error
                  message := (tunnel.run (curled_get (some (from_latest_query_url
                    owner repo "latest" prerelease)) none)).stderr }] } ∧
    ∃ ge, (GithubExtension.construct plat owner repo asset_name "latest" prerelease
        unique_id tunnel json_loads).result = .ok ge ∧
      ge.download_url = none ∧ ge.unique_id = unique_id ∧
      ge.source_type = ExtensionSourceTypes.GitHub := by
  have h1 : _from_latest owner repo asset_name "latest" prerelease tunnel
      json_loads =
      { result := .ok none
        commands := [curled_get (some (from_latest_query_url owner repo "latest"
          prerelease)) none]
        log := [{ level := .error
                  message := (tunnel.run (curled_get (some (from_latest_query_url
                    owner repo "latest" prerelease)) none)).stderr }] } := by
    simp [_from_latest, hexit]
  refine ⟨h1, ?_⟩
  refine ⟨{ unique_id := unique_id, owner := owner, repo := repo
            asset_name := asset_name, release := "latest"
            prerelease := prerelease, download_url := none
            source_type := ExtensionSourceTypes.GitHub
            download_from_marketplace := downloadFromMarketplaceFlag plat
              unique_id },
    ?_, rfl, rfl, rfl⟩
  simp [GithubExtension.construct, h1]

/-- Witness for latest_resolution_null_on_transport_failure over the always-failing
channel. -/
theorem latest_resolution_null_on_transport_failure_witness :
    _from_latest "acme" "widget" "widget-linux.vsix" "latest" false failTunnel
        singleDecoder =
      { result := .ok none
        commands := [curled_get (some (from_latest_query_url "acme" "widget"
          "latest" false)) none]
        log := [{ level := .error
                  message := (failTunnel.run (curled_get (some
                    (from_latest_query_url "acme" "widget" "latest" false))
                    none)).stderr }] } ∧
    ∃ ge, (GithubExtension.construct .linux64 "acme" "widget" "widget-linux.vsix"
        "latest" false (some "acme.widget") failTunnel singleDecoder).result =
        .ok ge ∧
      ge.download_url = none ∧ ge.unique_id = some "acme.widget" ∧
      ge.source_type = ExtensionSourceTypes.GitHub :=
  latest_resolution_null_on_transport_failure .linux64 "acme" "widget"
    "widget-linux.vsix" false (some "acme.widget") failTunnel singleDecoder
    (by decide)

/-- Claim C7: each marketplace metadata extraction is a first-match scan over its
typed entry list that returns none when no entry matches rather than raising, and
normalization reads only the first element of the response's version list, ignoring
historical versions. -/
theorem marketplace_first_match_extractions :
    (∀ files, (∀ f ∈ files,
        f.assetType ≠ "Microsoft.VisualStudio.Code.Manifest") →
        _manifest_url files = none) ∧
    (∀ files, (∀ f ∈ files,
        f.assetType ≠ "Microsoft.VisualStudio.Services.VSIXPackage") →
        _vsix_package_uri files = none) ∧
    (∀ properties, (∀ q ∈ properties,
        q.key ≠ "Microsoft.VisualStudio.Code.Engine") →
        _code_engine properties = none) ∧
    (∀ properties, (∀ q ∈ properties,
        q.key ≠ "Microsoft.VisualStudio.Code.ExtensionPack") →
        _extension_pack properties = none) ∧
    (∀ properties, (∀ q ∈ properties,
        q.key ≠ "Microsoft.VisualStudio.Code.ExtensionDependencies") →
        _extension_dependencies properties = none) ∧
    (∀ l1 f l2, f.assetType = "Microsoft.VisualStudio.Code.Manifest" →
        (∀ g ∈ l1, g.assetType ≠ "Microsoft.VisualStudio.Code.Manifest") →
        _manifest_url (l1 ++ f :: l2) = some f.source) ∧
    (∀ l1 q l2, q.key = "Microsoft.VisualStudio.Code.Engine" →
        (∀ g ∈ l1, g.key ≠ "Microsoft.VisualStudio.Code.Engine") →
        _code_engine (l1 ++ q :: l2) = some q.value) ∧
    (∀ (plat : Platform) (p : MarketplaceResponse) (v : MarketplaceVersion)
        rest1 rest2,
        MarketplaceExtension.ofResponse plat { p with versions := v :: rest1 } =
          MarketplaceExtension.ofResponse plat
            { p with versions := v :: rest2 }) ∧
    (∀ (plat : Platform) (p : MarketplaceResponse) (v : MarketplaceVersion)
        rest (me : MarketplaceExtension), p.versions = v :: rest →
        MarketplaceExtension.ofResponse plat p = .ok me →
        me.uri.manifest = _manifest_url v.files ∧
        me.uri.vsix_package = _vsix_package_uri v.files ∧
        me.code_engine = _code_engine v.properties ∧
        me.extension_pack = _extension_pack v.properties ∧
        me.extension_dependencies = _extension_dependencies v.properties ∧
        me.version = v.version) := by
  refine ⟨?_, ?_, ?_, ?_, ?_, ?_, ?_, ?_, ?_⟩
  · intro files hall
    rw [_manifest_url, dict_from_list_key_eq_none files VersionFile.assetType _
      hall]
  · intro files hall
    rw [_vsix_package_uri, dict_from_list_key_eq_none files VersionFile.assetType _
      hall]
  · intro properties hall
    rw [_code_engine, dict_from_list_key_eq_none properties VersionProperty.key _
      hall]
  · intro properties hall
    rw [_extension_pack, dict_from_list_key_eq_none properties
      VersionProperty.key _ hall]
  · intro properties hall
    rw [_extension_dependencies, dict_from_list_key_eq_none properties
      VersionProperty.key _ hall]
  · intro l1 f l2 hf hl1
    rw [_manifest_url, dict_from_list_key_first l1 f l2 VersionFile.assetType _
      hf hl1]
  · intro l1 q l2 hq hl1
    rw [_code_engine, dict_from_list_key_first l1 q l2 VersionProperty.key _
      hq hl1]
  · intro plat p v rest1 rest2
    rfl
  · intro plat p v rest me hv hok
    simp [MarketplaceExtension.ofResponse, hv] at hok
    subst hok
    exact ⟨rfl, rfl, rfl, rfl, rfl, rfl⟩

/-- Witness for marketplace_first_match_extractions: a file list holding only the
VSIXPackage entry yields no manifest URL. -/
theorem marketplace_first_match_extractions_witness :
    _manifest_url [{ assetType := "Microsoft.VisualStudio.Services.VSIXPackage"
                     source := "U" }] = none :=
  marketplace_first_match_extractions.1
    [{ assetType := "Microsoft.VisualStudio.Services.VSIXPackage", source := "U" }]
    (by decide)

end PyVsc
